import Mathlib

/-!
Verification of the beamng-proto core protocol layer: frame codec,
message-value helpers, error taxonomy, and the correlated connection
state machine (crates/beamng-proto/src/frame.rs, types.rs, error.rs,
connection.rs).

Modelling conventions: machine integers are Nat/Int with explicit
wrap-around where the code can overflow; the TCP read half is a finite
byte list followed by a terminal condition (clean close or some other
transport failure); finite IEEE doubles are modelled as rationals
(every finite f64 is an exact rational, and every operation the code
performs on them — comparison and truncating cast — is exact on
rationals); the external msgpack codec (the rmpv crate) is modelled as
a deterministic self-describing binary encoding with a partial
decoder, since no behaviour of this repository depends on the exact
msgpack byte layout, only on encode/decode round-tripping and on
decode failing on non-conforming bytes.
-/

set_option maxRecDepth 8192

namespace Bng

/-- Model of rmpv::Value: a dynamically typed msgpack value. uint holds
msgpack PosInt (non-negative), int holds NegInt (negative); float covers
F32/F64 as an exact rational. -/
inductive Value where
  | nil
  | boolean (b : Bool)
  | uint (n : Nat)
  | int (i : Int)
  | float (q : Rat)
  | str (s : String)
  | bin (b : List Nat)
  | arr (vs : List Value)
  | map (pairs : List (Value × Value))

/-- Digits of n in base 256, least significant first (fuel-structural so
that the kernel can evaluate it). -/
def natDigitsAux : Nat → Nat → List Nat
  | 0, _ => []
  | fuel + 1, n => if n = 0 then [] else n % 256 :: natDigitsAux fuel (n / 256)

/-- Base-256 little-endian digits of a natural number. -/
def natDigits (n : Nat) : List Nat := natDigitsAux n n

/-- Self-delimiting encoding of a natural number: a cons/end spine of its
base-256 digits. -/
def natSpine (n : Nat) : List Nat := (natDigits n).foldr (fun d acc => 11 :: d :: acc) [10]

/-- Self-delimiting encoding of a list of naturals. -/
def natsSpine (ns : List Nat) : List Nat := ns.foldr (fun n acc => 11 :: natSpine n ++ acc) [10]

mutual

/-- Model of rmpv::encode::write_value: a deterministic self-describing
byte encoding of a Value. -/
def encode : Value → List Nat
  | .nil => [0]
  | .boolean false => [1]
  | .boolean true => [2]
  | .uint n => 3 :: natSpine n
  | .int i => 4 :: (if i < 0 then 1 else 0) :: natSpine i.natAbs
  | .float q => 5 :: (if q < 0 then 1 else 0) :: natSpine q.num.natAbs ++ natSpine q.den
  | .str s => 6 :: natsSpine (s.data.map Char.toNat)
  | .bin b => 7 :: natsSpine b
  | .arr vs => 8 :: encodeL vs
  | .map ps => 9 :: encodeP ps

/-- Encoding of an array body as a cons/end spine. -/
def encodeL : List Value → List Nat
  | [] => [10]
  | v :: vs => 11 :: encode v ++ encodeL vs

/-- Encoding of a map body as a cons/end spine of key/value pairs. -/
def encodeP : List (Value × Value) → List Nat
  | [] => [10]
  | (k, v) :: ps => 11 :: encode k ++ encode v ++ encodeP ps

end

/-- Intermediate result of the decoder, one constructor per decode mode. -/
inductive DecRes where
  | val (v : Value)
  | num (n : Nat)
  | nats (ns : List Nat)
  | list (vs : List Value)
  | pairs (ps : List (Value × Value))

/-- What the decoder is currently decoding. -/
inductive DecMode where
  | one
  | num
  | nats
  | list
  | pairs

/-- Model of rmpv::decode::read_value (fuel-structural single-pass
decoder; the wrapper below supplies fuel that always suffices). Returns
the decoded object and the unconsumed trailing bytes, or none for
non-conforming input. -/
def decodeD : Nat → DecMode → List Nat → Option (DecRes × List Nat)
  | 0, _, _ => none
  | fuel + 1, .num, bs =>
    match bs with
    | 10 :: r => some (.num 0, r)
    | 11 :: d :: r =>
      match decodeD fuel .num r with
      | some (.num m, r1) => some (.num (d + 256 * m), r1)
      | _ => none
    | _ => none
  | fuel + 1, .nats, bs =>
    match bs with
    | 10 :: r => some (.nats [], r)
    | 11 :: r =>
      match decodeD fuel .num r with
      | some (.num n, r1) =>
        match decodeD fuel .nats r1 with
        | some (.nats ns, r2) => some (.nats (n :: ns), r2)
        | _ => none
      | _ => none
    | _ => none
  | fuel + 1, .list, bs =>
    match bs with
    | 10 :: r => some (.list [], r)
    | 11 :: r =>
      match decodeD fuel .one r with
      | some (.val v, r1) =>
        match decodeD fuel .list r1 with
        | some (.list vs, r2) => some (.list (v :: vs), r2)
        | _ => none
      | _ => none
    | _ => none
  | fuel + 1, .pairs, bs =>
    match bs with
    | 10 :: r => some (.pairs [], r)
    | 11 :: r =>
      match decodeD fuel .one r with
      | some (.val k, r1) =>
        match decodeD fuel .one r1 with
        | some (.val v, r2) =>
          match decodeD fuel .pairs r2 with
          | some (.pairs ps, r3) => some (.pairs ((k, v) :: ps), r3)
          | _ => none
        | _ => none
      | _ => none
    | _ => none
  | fuel + 1, .one, bs =>
    match bs with
    | 0 :: r => some (.val .nil, r)
    | 1 :: r => some (.val (.boolean false), r)
    | 2 :: r => some (.val (.boolean true), r)
    | 3 :: r =>
      match decodeD fuel .num r with
      | some (.num n, r1) => some (.val (.uint n), r1)
      | _ => none
    | 4 :: sg :: r =>
      match decodeD fuel .num r with
      | some (.num m, r1) => some (.val (.int (if sg = 1 then -(m : Int) else (m : Int))), r1)
      | _ => none
    | 5 :: sg :: r =>
      match decodeD fuel .num r with
      | some (.num nu, r1) =>
        match decodeD fuel .num r1 with
        | some (.num de, r2) =>
          some (.val (.float (mkRat (if sg = 1 then -(nu : Int) else (nu : Int)) de)), r2)
        | _ => none
      | _ => none
    | 6 :: r =>
      match decodeD fuel .nats r with
      | some (.nats ns, r1) => some (.val (.str (String.mk (ns.map Char.ofNat))), r1)
      | _ => none
    | 7 :: r =>
      match decodeD fuel .nats r with
      | some (.nats ns, r1) => some (.val (.bin ns), r1)
      | _ => none
    | 8 :: r =>
      match decodeD fuel .list r with
      | some (.list vs, r1) => some (.val (.arr vs), r1)
      | _ => none
    | 9 :: r =>
      match decodeD fuel .pairs r with
      | some (.pairs ps, r1) => some (.val (.map ps), r1)
      | _ => none
    | _ => none

/-- Decode one Value from a byte list, ignoring trailing bytes (mirrors
rmpv::decode::read_value reading one value off the front of a slice). -/
def decodeValue (bs : List Nat) : Option (Value × List Nat) :=
  match decodeD (bs.length + 1) .one bs with
  | some (.val v, r) => some (v, r)
  | _ => none

/-- UTF-8 continuation byte test. -/
def isCont (c : Nat) : Bool := decide (0x80 ≤ c ∧ c ≤ 0xBF)

/-- UTF-8 decoder over a byte list (model of std::str::from_utf8 /
String::from_utf8), following RFC 3629: rejects overlong forms,
surrogates, and code points above 0x10FFFF. -/
def utf8Decode : List Nat → Option (List Char)
  | [] => some []
  | b :: rest =>
    if b ≤ 0x7F then
      (utf8Decode rest).map (fun cs => Char.ofNat b :: cs)
    else if 0xC2 ≤ b ∧ b ≤ 0xDF then
      match rest with
      | c1 :: r =>
        if isCont c1 then
          (utf8Decode r).map (fun cs => Char.ofNat ((b - 0xC0) * 64 + (c1 - 0x80)) :: cs)
        else none
      | [] => none
    else if 0xE0 ≤ b ∧ b ≤ 0xEF then
      match rest with
      | c1 :: c2 :: r =>
        if (if b = 0xE0 then decide (0xA0 ≤ c1 ∧ c1 ≤ 0xBF)
            else if b = 0xED then decide (0x80 ≤ c1 ∧ c1 ≤ 0x9F)
            else isCont c1) && isCont c2 then
          (utf8Decode r).map
            (fun cs => Char.ofNat (((b - 0xE0) * 64 + (c1 - 0x80)) * 64 + (c2 - 0x80)) :: cs)
        else none
      | _ => none
    else if 0xF0 ≤ b ∧ b ≤ 0xF4 then
      match rest with
      | c1 :: c2 :: c3 :: r =>
        if (if b = 0xF0 then decide (0x90 ≤ c1 ∧ c1 ≤ 0xBF)
            else if b = 0xF4 then decide (0x80 ≤ c1 ∧ c1 ≤ 0x8F)
            else isCont c1) && isCont c2 && isCont c3 then
          (utf8Decode r).map
            (fun cs =>
              Char.ofNat ((((b - 0xF0) * 64 + (c1 - 0x80)) * 64 + (c2 - 0x80)) * 64 + (c3 - 0x80)) :: cs)
        else none
      | _ => none
    else none

/-- Model of rmpv Value::as_u64: only a non-negative integer. -/
def Value.as_u64 : Value → Option Nat
  | .uint n => some n
  | _ => none

/-- Model of rmpv Value::as_i64: a non-negative integer that fits in i64,
or a negative integer. -/
def Value.as_i64 : Value → Option Int
  | .uint n => if n ≤ 2 ^ 63 - 1 then some (n : Int) else none
  | .int i => some i
  | _ => none

/-- Model of rmpv Value::as_f64: integers and floats, as exact rationals. -/
def Value.as_f64 : Value → Option Rat
  | .uint n => some (n : Rat)
  | .int i => some (i : Rat)
  | .float q => some q
  | _ => none

/-- Model of rmpv Value::as_str: only the native string variant (the
Binary variant is NOT accepted here, unlike value_as_str below). -/
def Value.as_str : Value → Option String
  | .str s => some s
  | _ => none

/-- types.rs value_as_str: extract a string from either the String
variant or a UTF-8-valid Binary variant. -/
def value_as_str : Value → Option String
  | .str s => some s
  | .bin b => (utf8Decode b).map String.mk
  | _ => none

/-- types.rs value_to_string: owned-string variant of value_as_str. -/
def value_to_string : Value → Option String
  | .str s => some s
  | .bin b => (utf8Decode b).map String.mk
  | _ => none

/-- types.rs key_to_string: extract a map key as a string (String or
UTF-8-valid Binary). -/
def key_to_string : Value → Option String
  | .str s => some s
  | .bin b => (utf8Decode b).map String.mk
  | _ => none

/-- Rust i64-to-u64 cast (two's-complement wrap-around). -/
def u64_of_i64 (i : Int) : Nat := (i % 2 ^ 64).toNat

/-- Rust f64-to-u64 cast on a finite double: truncation toward zero,
saturating at the bounds of u64 (negative values go to 0). -/
def f64_as_u64 (q : Rat) : Nat :=
  if q < 0 then 0 else min (q.num.toNat / q.den) (2 ^ 64 - 1)

/-- types.rs value_as_u64: accept unsigned integer, signed integer, or
floating point, coercing to u64 (the peer sometimes sends _id as f64). -/
def value_as_u64 (val : Value) : Option Nat :=
  (val.as_u64).orElse fun _ =>
    ((val.as_i64).map u64_of_i64).orElse fun _ =>
      (val.as_f64).map f64_as_u64

/-- Association-list model of HashMap insertion: replace the entry for
an existing key in place, otherwise append. -/
def insertKV {α β : Type} [DecidableEq α] (m : List (α × β)) (k : α) (v : β) : List (α × β) :=
  if m.any (fun p => p.1 = k) then m.map (fun p => if p.1 = k then (k, v) else p)
  else m ++ [(k, v)]

/-- Association-list model of HashMap lookup. -/
def getKV {α β : Type} [DecidableEq α] (m : List (α × β)) (k : α) : Option β :=
  (m.find? (fun p => p.1 = k)).map (fun p => p.2)

/-- Association-list model of HashMap removal. -/
def removeKV {α β : Type} [DecidableEq α] (m : List (α × β)) (k : α) : List (α × β) :=
  m.filter (fun p => !(p.1 = k : Bool))

/-- types.rs StrDict: a string-keyed dictionary of values. -/
abbrev StrDict := List (String × Value)

/-- Conversion loop of value_to_str_dict: insert each pair after
converting its key, failing on the first non-convertible key. -/
def value_to_str_dict_pairs : List (Value × Value) → StrDict → Option StrDict
  | [], acc => some acc
  | (k, v) :: ps, acc =>
    match key_to_string k with
    | none => none
    | some key => value_to_str_dict_pairs ps (insertKV acc key v)

/-- types.rs value_to_str_dict: convert a decoded Value into a StrDict,
returning none if it is not a map or has a non-convertible key. -/
def value_to_str_dict (val : Value) : Option StrDict :=
  match val with
  | .map pairs => value_to_str_dict_pairs pairs []
  | _ => none

/-- error.rs BngError: the closed error taxonomy. Payload-free
constructors stand for the variants whose payloads (source errors) the
claims never inspect. -/
inductive BngError where
  | SimulatorError (msg : String)
  | ValueError (msg : String)
  | Disconnected (msg : String)
  | ProtocolMismatch (msg : String)
  | UnexpectedResponseType (expected : String) (got : String)
  | MissingId
  | Io
  | MsgpackEncode
  | MsgpackDecode
  | Timeout (msg : String)
deriving DecidableEq

/-- What the modelled read half does after its buffered bytes run out:
the peer closed the stream cleanly, or some other transport failure
(timeout, reset, ...) occurs. -/
inductive StreamEnd where
  | closed
  | ioError
deriving DecidableEq

/-- Model of the read half of the TCP stream: the bytes still readable,
followed by a terminal condition. -/
structure ByteStream where
  data : List Nat
  after : StreamEnd
deriving DecidableEq

/-- How a low-level read can fail: end of file, or any other I/O error. -/
inductive ReadFail where
  | eof
  | other
deriving DecidableEq

/-- Model of tokio read_exact / read_u32: consume exactly n bytes, or
fail with UnexpectedEof if the stream ends first, or with the other
transport error. -/
def readExact (s : ByteStream) (n : Nat) : Except ReadFail (List Nat × ByteStream) :=
  if n ≤ s.data.length then .ok (s.data.take n, ⟨s.data.drop n, s.after⟩)
  else
    match s.after with
    | .closed => .error .eof
    | .ioError => .error .other

/-- Big-endian bytes of a u32 (the 4-byte frame length prefix). -/
def be32Bytes (n : Nat) : List Nat :=
  [n / 2 ^ 24 % 256, n / 2 ^ 16 % 256, n / 2 ^ 8 % 256, n % 256]

/-- Value of 4 big-endian bytes as a u32. -/
def be32Val : List Nat → Nat
  | [a, b, c, d] => ((a * 256 + b) * 256 + c) * 256 + d
  | _ => 0

/-- frame.rs read_frame: read the 4-byte big-endian length, then exactly
that many payload bytes. Stream end mid-header or mid-body is a
Disconnected condition; any other transport failure is the I/O
condition. -/
def read_frame (s : ByteStream) : Except BngError (List Nat × ByteStream) :=
  match readExact s 4 with
  | .error .eof => .error (.Disconnected "Connection closed while reading frame header")
  | .error .other => .error .Io
  | .ok (hdr, s1) =>
    match readExact s1 (be32Val hdr) with
    | .error .eof => .error (.Disconnected "Connection closed while reading frame body")
    | .error .other => .error .Io
    | .ok (body, s2) => .ok (body, s2)

/-- frame.rs write_frame: append the 4-byte big-endian length (the u32
cast of the payload length) and the payload bytes to the write buffer. -/
def write_frame (buf : List Nat) (data : List Nat) : List Nat :=
  buf ++ be32Bytes (data.length % 2 ^ 32) ++ data

/-- connection.rs PROTOCOL_VERSION: the protocol version this client
speaks. -/
def PROTOCOL_VERSION : String := "v1.26"

/-- connection.rs ResponsePayload: a buffered out-of-order response,
stored as a successful dict or as a captured simulator error. -/
inductive ResponsePayload where
  | payloadOk (dict : StrDict)
  | simError (e : BngError)

/-- connection.rs Connection: the read half, the bytes written so far to
the write half, the u64 request-id counter, and the buffer of
out-of-order responses keyed by their _id. -/
structure Connection where
  readStream : ByteStream
  written : List Nat
  reqId : Nat
  buffered : List (Nat × ResponsePayload)

/-- connection.rs next_id: fetch_add(1) on the u64 counter, returning
the old value (wrapping at 2 ^ 64). -/
def next_id (c : Connection) : Nat × Connection :=
  (c.reqId, { c with reqId := (c.reqId + 1) % 2 ^ 64 })

/-- connection.rs check_sim_error: a dict with the bngError key is a
SimulatorError, else one with the bngValueError key is a ValueError
(the message is the native-string value, or the fixed fallback text). -/
def check_sim_error (dict : StrDict) : Option BngError :=
  match getKV dict "bngError" with
  | some val => some (.SimulatorError ((val.as_str).getD "unknown error"))
  | none =>
    match getKV dict "bngValueError" with
    | some val => some (.ValueError ((val.as_str).getD "unknown value error"))
    | none => none

/-- connection.rs lines 184-187: how recv stores a mismatched response
in the pending buffer, per its classification. -/
def classifyPayload (dict : StrDict) : ResponsePayload :=
  match check_sim_error dict with
  | some e => .simError e
  | none => .payloadOk dict

/-- connection.rs send_raw: allocate the next id, build the message map
with the type and _id entries followed by the caller fields, encode it
and write it as one frame. Returns the assigned id (writing to an
in-memory buffer cannot fail, so the model is total). -/
def send_raw (c : Connection) (reqType : String) (fields : List (String × Value)) :
    Nat × Connection :=
  let idc := next_id c
  let pairs : List (Value × Value) :=
    (.str "type", .str reqType) :: (.str "_id", .uint idc.1) ::
      fields.map (fun kv => (Value.str kv.1, kv.2))
  let packed := encode (.map pairs)
  (idc.1, { idc.2 with written := write_frame idc.2.written packed })

/-- connection.rs read_one_message: read one frame, decode its payload
(decode failure is wrapped as the I/O condition), and convert it to a
StrDict (a non-dict payload is the MissingId condition). -/
def read_one_message (c : Connection) : Except BngError (StrDict × Connection) :=
  match read_frame c.readStream with
  | .error e => .error e
  | .ok (data, s1) =>
    match decodeValue data with
    | none => .error .Io
    | some (v, _) =>
      match value_to_str_dict v with
      | none => .error .MissingId
      | some dict => .ok (dict, { c with readStream := s1 })

/-- A successful readExact consumed exactly n of the available bytes. -/
theorem readExact_ok {s : ByteStream} {n : Nat} {bs : List Nat} {s1 : ByteStream}
    (h : readExact s n = .ok (bs, s1)) :
    s1.data.length + n = s.data.length := by
  unfold readExact at h
  split at h
  · simp only [Except.ok.injEq, Prod.mk.injEq] at h
    obtain ⟨-, hs⟩ := h
    subst hs
    simp only [List.length_drop]
    omega
  · split at h <;> simp at h

/-- A successful read_frame strictly shrinks the readable stream (it
consumed at least the 4 header bytes). -/
theorem read_frame_lt {s : ByteStream} {body : List Nat} {s2 : ByteStream}
    (h : read_frame s = .ok (body, s2)) :
    s2.data.length < s.data.length := by
  unfold read_frame at h
  cases h1 : readExact s 4 with
  | error e => rw [h1] at h; cases e <;> simp at h
  | ok p =>
    obtain ⟨hdr, s1⟩ := p
    rw [h1] at h
    dsimp only at h
    cases h2 : readExact s1 (be32Val hdr) with
    | error e => rw [h2] at h; cases e <;> simp at h
    | ok q =>
      obtain ⟨b2, s3⟩ := q
      rw [h2] at h
      simp only [Except.ok.injEq, Prod.mk.injEq] at h
      obtain ⟨-, hs⟩ := h
      subst hs
      have l1 := readExact_ok h1
      have l2 := readExact_ok h2
      omega

/-- A successful read_one_message strictly shrinks the readable stream. -/
theorem read_one_message_lt {c : Connection} {d : StrDict} {c1 : Connection}
    (h : read_one_message c = .ok (d, c1)) :
    c1.readStream.data.length < c.readStream.data.length := by
  unfold read_one_message at h
  cases hf : read_frame c.readStream with
  | error e => rw [hf] at h; simp at h
  | ok p =>
    obtain ⟨data, s1⟩ := p
    rw [hf] at h
    dsimp only at h
    have hlt := read_frame_lt hf
    cases hd : decodeValue data with
    | none => rw [hd] at h; simp at h
    | some vp =>
      obtain ⟨v, rest⟩ := vp
      rw [hd] at h
      dsimp only at h
      cases hv : value_to_str_dict v with
      | none => rw [hv] at h; simp at h
      | some dict =>
        rw [hv] at h
        simp only [Except.ok.injEq, Prod.mk.injEq] at h
        obtain ⟨-, hc⟩ := h
        subst hc
        simpa using hlt

/-- connection.rs recv, lines 167-189: read frames until one carries the
awaited id. A frame without an extractable _id is the MissingId
condition; a frame with the awaited id is returned (as the classified
simulator error if it carries one); any other frame is stored in the
pending buffer keyed by its id, and the loop continues. Terminates on
the modelled finite stream because each successful read strictly
shrinks it. Errors are returned together with the connection as last
known (per the spec, the caller discards the connection on error). -/
def recvLoop (c : Connection) (reqId : Nat) : (Except BngError StrDict) × Connection :=
  match hr : read_one_message c with
  | .error e => (.error e, c)
  | .ok (dict, c1) =>
    match (getKV dict "_id").bind value_as_u64 with
    | none => (.error .MissingId, c1)
    | some msgId =>
      if msgId = reqId then
        match check_sim_error dict with
        | some e => (.error e, c1)
        | none => (.ok dict, c1)
      else
        recvLoop { c1 with buffered := insertKV c1.buffered msgId (classifyPayload dict) } reqId
termination_by c.readStream.data.length
decreasing_by exact read_one_message_lt hr

/-- connection.rs recv, lines 154-189: first check the pending buffer
under its lock, removing and returning a present entry; otherwise enter
the read loop. -/
def recv (c : Connection) (reqId : Nat) : (Except BngError StrDict) × Connection :=
  match getKV c.buffered reqId with
  | some payload =>
    let c1 : Connection := { c with buffered := removeKV c.buffered reqId }
    match payload with
    | .payloadOk dict => (.ok dict, c1)
    | .simError e => (.error e, c1)
  | none => recvLoop c reqId

/-- connection.rs request: send_raw followed by recv on the returned
id. -/
def request (c : Connection) (reqType : String) (fields : List (String × Value)) :
    (Except BngError StrDict) × Connection :=
  let idc := send_raw c reqType fields
  recv idc.2 idc.1

/-- connection.rs hello: request of type Hello carrying the version
string; fail with ProtocolMismatch (message naming both versions) if
the echoed version differs, then with UnexpectedResponseType if the
response type is not Hello. -/
def hello (c : Connection) : (Except BngError Unit) × Connection :=
  let rc := request c "Hello" [("protocolVersion", .str PROTOCOL_VERSION)]
  match rc.1 with
  | .error e => (.error e, rc.2)
  | .ok resp =>
    let version := ((getKV resp "protocolVersion").bind value_as_str).getD ""
    if version ≠ PROTOCOL_VERSION then
      (.error (.ProtocolMismatch
        ("BeamNGpy\x27s is: " ++ PROTOCOL_VERSION ++ ", BeamNG.tech\x27s is: " ++ version)), rc.2)
    else
      let respType := ((getKV resp "type").bind value_as_str).getD ""
      if respType ≠ "Hello" then
        (.error (.UnexpectedResponseType "Hello" respType), rc.2)
      else
        (.ok (), rc.2)

/-- connection.rs open/from_stream: build a fresh connection around the
peer byte stream (TCP establishment is abstracted into the peer stream
argument), run the hello handshake, and return the connection only on
success. -/
def openConn (peer : ByteStream) : Except BngError Connection :=
  let c : Connection := ⟨peer, [], 0, []⟩
  match hello c with
  | (.ok _, c1) => .ok c1
  | (.error e, _) => .error e

/-- Driver iterating send_raw over a list of pending requests, collecting
the assigned ids in submission order. -/
def sendSeq (c : Connection) : List (String × List (String × Value)) → List Nat × Connection
  | [] => ([], c)
  | r :: rs =>
    let idc := send_raw c r.1 r.2
    let tail := sendSeq idc.2 rs
    (idc.1 :: tail.1, tail.2)

/-- Looking up the key just inserted gives the inserted value. -/
theorem getKV_insertKV_self {α β : Type} [DecidableEq α] (m : List (α × β)) (k : α) (v : β) :
    getKV (insertKV m k v) k = some v := by
  unfold insertKV getKV
  split
  · rename_i hany
    induction m with
    | nil => simp at hany
    | cons p ps ih =>
      by_cases hp : p.1 = k
      · simp [List.find?, hp]
      · simp only [List.any_cons, Bool.or_eq_true, decide_eq_true_eq] at hany
        rcases hany with h | h
        · exact absurd h hp
        · simpa [List.find?, hp] using ih (by simpa using h)
  · induction m with
    | nil => simp [List.find?]
    | cons p ps ih =>
      rename_i hany
      simp only [List.any_cons, Bool.or_eq_true, decide_eq_true_eq, not_or] at hany
      simpa [List.find?, hany.1] using ih (by simpa using hany.2)

/-- Lookup on a cons cell checks the head first. -/
theorem getKV_cons {α β : Type} [DecidableEq α] (p : α × β) (ps : List (α × β)) (k : α) :
    getKV (p :: ps) k = if p.1 = k then some p.2 else getKV ps k := by
  unfold getKV
  by_cases hp : p.1 = k
  · simp [List.find?, hp]
  · simp [List.find?, hp]

/-- Removal on a cons cell drops a matching head. -/
theorem removeKV_cons {α β : Type} [DecidableEq α] (p : α × β) (ps : List (α × β)) (k : α) :
    removeKV (p :: ps) k = if p.1 = k then removeKV ps k else p :: removeKV ps k := by
  unfold removeKV
  by_cases hp : p.1 = k
  · simp [List.filter, hp]
  · simp [List.filter, hp]

/-- Removal empties the looked-up key. -/
theorem getKV_removeKV_self {α β : Type} [DecidableEq α] (m : List (α × β)) (k : α) :
    getKV (removeKV m k) k = none := by
  induction m with
  | nil => rfl
  | cons p ps ih =>
    rw [removeKV_cons]
    by_cases hp : p.1 = k
    · rw [if_pos hp]; exact ih
    · rw [if_neg hp, getKV_cons, if_neg hp]; exact ih

/-- Removal of one key leaves every other key unchanged. -/
theorem getKV_removeKV_ne {α β : Type} [DecidableEq α] (m : List (α × β)) (k k2 : α)
    (h : k2 ≠ k) :
    getKV (removeKV m k) k2 = getKV m k2 := by
  induction m with
  | nil => rfl
  | cons p ps ih =>
    rw [removeKV_cons, getKV_cons]
    by_cases hp : p.1 = k
    · have hp2 : ¬ p.1 = k2 := by rw [hp]; exact fun hh => h hh.symm
      rw [if_pos hp, if_neg hp2]; exact ih
    · rw [if_neg hp, getKV_cons]
      by_cases hq : p.1 = k2
      · rw [if_pos hq, if_pos hq]
      · rw [if_neg hq, if_neg hq]; exact ih

/-- The length of the 4-byte big-endian prefix. -/
theorem be32Bytes_length (n : Nat) : (be32Bytes n).length = 4 := rfl

/-- Reading back 4 big-endian bytes of a u32 recovers the u32. -/
theorem be32Val_be32Bytes {n : Nat} (h : n < 2 ^ 32) : be32Val (be32Bytes n) = n := by
  simp only [be32Bytes, be32Val]
  omega

/-- readExact of exactly the prefix length splits the stream. -/
theorem readExact_prefix (pre suf : List Nat) (e : StreamEnd) :
    readExact ⟨pre ++ suf, e⟩ pre.length = .ok (pre, ⟨suf, e⟩) := by
  unfold readExact
  rw [if_pos (by simp)]
  simp

/-- readExact past the end of a cleanly closed stream is an eof. -/
theorem readExact_eof {d : List Nat} {n : Nat} (h : d.length < n) :
    readExact ⟨d, .closed⟩ n = .error .eof := by
  unfold readExact
  rw [if_neg (by simp; omega)]

/-- readExact past the end of a stream with a pending transport failure
surfaces that failure. -/
theorem readExact_ioError {d : List Nat} {n : Nat} (h : d.length < n) :
    readExact ⟨d, .ioError⟩ n = .error .other := by
  unfold readExact
  rw [if_neg (by simp; omega)]

/-- read_frame applied right after write_frame recovers the payload and
leaves the trailing bytes. -/
theorem read_frame_write {bs : List Nat} (rest : List Nat) (e : StreamEnd)
    (h : bs.length < 2 ^ 32) :
    read_frame ⟨write_frame [] bs ++ rest, e⟩ = .ok (bs, ⟨rest, e⟩) := by
  have hmod : bs.length % 2 ^ 32 = bs.length := Nat.mod_eq_of_lt h
  have hdata : (⟨write_frame [] bs ++ rest, e⟩ : ByteStream) =
      ⟨be32Bytes bs.length ++ (bs ++ rest), e⟩ := by
    simp only [write_frame, hmod, List.nil_append, List.append_assoc]
  rw [hdata]
  have h1 := readExact_prefix (be32Bytes bs.length) (bs ++ rest) e
  rw [be32Bytes_length] at h1
  unfold read_frame
  rw [h1]
  dsimp only
  rw [be32Val_be32Bytes h]
  have h2 := readExact_prefix bs rest e
  rw [h2]

/-- recvLoop propagates a read error and leaves the connection as last
known. -/
theorem recvLoop_step_err {c : Connection} {e : BngError} {id : Nat}
    (h : read_one_message c = .error e) : recvLoop c id = (.error e, c) := by
  rw [recvLoop, h]

/-- recvLoop fails with MissingId on a message without an extractable
_id. -/
theorem recvLoop_step_missing {c c1 : Connection} {dict : StrDict} {id : Nat}
    (h : read_one_message c = .ok (dict, c1))
    (hid : (getKV dict "_id").bind value_as_u64 = none) :
    recvLoop c id = (.error .MissingId, c1) := by
  rw [recvLoop, h]
  dsimp only
  rw [hid]

/-- recvLoop returns a message carrying the awaited id, surfacing its
simulator error if classified as one. -/
theorem recvLoop_step_match {c c1 : Connection} {dict : StrDict} {id : Nat}
    (h : read_one_message c = .ok (dict, c1))
    (hid : (getKV dict "_id").bind value_as_u64 = some id) :
    recvLoop c id = (match check_sim_error dict with
                     | some e => (.error e, c1)
                     | none => (.ok dict, c1)) := by
  rw [recvLoop, h]
  dsimp only
  rw [hid]
  dsimp only
  rw [if_pos rfl]

/-- recvLoop buffers a message carrying a foreign id and keeps reading. -/
theorem recvLoop_step_buffer {c c1 : Connection} {dict : StrDict} {id msgId : Nat}
    (h : read_one_message c = .ok (dict, c1))
    (hid : (getKV dict "_id").bind value_as_u64 = some msgId)
    (hne : msgId ≠ id) :
    recvLoop c id =
      recvLoop { c1 with buffered := insertKV c1.buffered msgId (classifyPayload dict) } id := by
  rw [recvLoop, h]
  dsimp only
  rw [hid]
  dsimp only
  rw [if_neg hne]

/-- With nothing buffered for the awaited id, recv is the read loop. -/
theorem recv_of_buffer_none {c : Connection} {id : Nat}
    (h : getKV c.buffered id = none) : recv c id = recvLoop c id := by
  unfold recv
  rw [h]

/-- Reading one message off a stream that starts with a written frame
whose payload decodes to a dict. -/
theorem read_one_message_frame {c : Connection} {bs rest : List Nat} {e : StreamEnd}
    {v : Value} {tr : List Nat} {d : StrDict}
    (hs : c.readStream = ⟨write_frame [] bs ++ rest, e⟩)
    (hlen : bs.length < 2 ^ 32)
    (hdec : decodeValue bs = some (v, tr))
    (hdict : value_to_str_dict v = some d) :
    read_one_message c = .ok (d, { c with readStream := ⟨rest, e⟩ }) := by
  unfold read_one_message
  rw [hs, read_frame_write rest e hlen]
  dsimp only
  rw [hdec]
  dsimp only
  rw [hdict]

/-- Reading one message whose decoded payload is not convertible to a
dict (not a map, or a key neither text nor valid UTF-8 binary) is the
MissingId condition. -/
theorem read_one_message_frame_nodict {c : Connection} {bs rest : List Nat} {e : StreamEnd}
    {v : Value} {tr : List Nat}
    (hs : c.readStream = ⟨write_frame [] bs ++ rest, e⟩)
    (hlen : bs.length < 2 ^ 32)
    (hdec : decodeValue bs = some (v, tr))
    (hdict : value_to_str_dict v = none) :
    read_one_message c = .error .MissingId := by
  unfold read_one_message
  rw [hs, read_frame_write rest e hlen]
  dsimp only
  rw [hdec]
  dsimp only
  rw [hdict]

/-- recv on an empty buffer and a stream starting with one frame whose
dict carries the awaited id: return it, surfacing a classified simulator
error as a failure. -/
theorem recv_frame_match {c : Connection} {bs rest : List Nat} {e : StreamEnd}
    {v : Value} {tr : List Nat} {d : StrDict} {N : Nat}
    (hbuf : getKV c.buffered N = none)
    (hs : c.readStream = ⟨write_frame [] bs ++ rest, e⟩)
    (hlen : bs.length < 2 ^ 32)
    (hdec : decodeValue bs = some (v, tr))
    (hdict : value_to_str_dict v = some d)
    (hid : (getKV d "_id").bind value_as_u64 = some N) :
    recv c N = (match check_sim_error d with
                | some er => (.error er, { c with readStream := ⟨rest, e⟩ })
                | none => (.ok d, { c with readStream := ⟨rest, e⟩ })) := by
  rw [recv_of_buffer_none hbuf]
  exact recvLoop_step_match (read_one_message_frame hs hlen hdec hdict) hid

/-- C2: for every byte payload of length 0 to 2^32-1, reading a frame
from the bytes produced by write_frame(payload) yields exactly the
payload (leaving any trailing bytes unread), and the first 4 bytes of
the written buffer are the big-endian 32-bit encoding of the payload
length. -/
theorem C2_frame_roundtrip (payload rest : List Nat) (e : StreamEnd)
    (h : payload.length < 2 ^ 32) :
    read_frame ⟨write_frame [] payload ++ rest, e⟩ = .ok (payload, ⟨rest, e⟩) ∧
    (write_frame [] payload).take 4 = be32Bytes payload.length := by
  refine ⟨read_frame_write rest e h, ?_⟩
  have h4 := List.take_left (be32Bytes (payload.length % 2 ^ 32)) payload
  rw [be32Bytes_length] at h4
  calc (write_frame [] payload).take 4
      = (be32Bytes (payload.length % 2 ^ 32) ++ payload).take 4 := by
        rw [write_frame, List.nil_append]
    _ = be32Bytes (payload.length % 2 ^ 32) := h4
    _ = be32Bytes payload.length := by rw [Nat.mod_eq_of_lt h]

/-- Witness for C2 at the concrete payload [7, 8] with a trailing byte. -/
theorem C2_frame_roundtrip_witness :
    read_frame ⟨write_frame [] [7, 8] ++ [9], .closed⟩ = .ok ([7, 8], ⟨[9], .closed⟩) ∧
    (write_frame [] [7, 8]).take 4 = be32Bytes 2 :=
  C2_frame_roundtrip [7, 8] [9] .closed (by decide)

/-- C3: a stream that ends before the 4 header bytes, or before the
announced number of body bytes, makes read_frame fail with the
Disconnected condition; any other transport failure in either position
surfaces as the generic I/O condition. -/
theorem C3_read_frame_failures :
    (∀ d : List Nat, d.length < 4 →
      read_frame ⟨d, .closed⟩ =
        .error (.Disconnected "Connection closed while reading frame header")) ∧
    (∀ hdr body : List Nat, hdr.length = 4 → body.length < be32Val hdr →
      read_frame ⟨hdr ++ body, .closed⟩ =
        .error (.Disconnected "Connection closed while reading frame body")) ∧
    (∀ d : List Nat, d.length < 4 → read_frame ⟨d, .ioError⟩ = .error .Io) ∧
    (∀ hdr body : List Nat, hdr.length = 4 → body.length < be32Val hdr →
      read_frame ⟨hdr ++ body, .ioError⟩ = .error .Io) := by
  refine ⟨?_, ?_, ?_, ?_⟩
  · intro d hd
    unfold read_frame
    rw [readExact_eof hd]
  · intro hdr body h4 hb
    unfold read_frame
    have h1 := readExact_prefix hdr body .closed
    rw [h4] at h1
    rw [h1]
    dsimp only
    rw [readExact_eof hb]
  · intro d hd
    unfold read_frame
    rw [readExact_ioError hd]
  · intro hdr body h4 hb
    unfold read_frame
    have h1 := readExact_prefix hdr body .ioError
    rw [h4] at h1
    rw [h1]
    dsimp only
    rw [readExact_ioError hb]

/-- Witness for C3: 2 of 4 header bytes then close, a 5-byte frame cut
after 2 body bytes then close, and the same shapes over a failing
transport. -/
theorem C3_read_frame_failures_witness :
    read_frame ⟨[0, 1], .closed⟩ =
      .error (.Disconnected "Connection closed while reading frame header") ∧
    read_frame ⟨[0, 0, 0, 5] ++ [1, 2], .closed⟩ =
      .error (.Disconnected "Connection closed while reading frame body") ∧
    read_frame ⟨[0, 1], .ioError⟩ = .error .Io ∧
    read_frame ⟨[0, 0, 0, 5] ++ [1, 2], .ioError⟩ = .error .Io :=
  ⟨C3_read_frame_failures.1 [0, 1] (by decide),
   C3_read_frame_failures.2.1 [0, 0, 0, 5] [1, 2] (by decide) (by decide),
   C3_read_frame_failures.2.2.1 [0, 1] (by decide),
   C3_read_frame_failures.2.2.2 [0, 0, 0, 5] [1, 2] (by decide) (by decide)⟩

/-- C9: when the pending buffer holds an entry for the awaited id, recv
answers from the buffer (success or stored simulator error per the
stored kind), removes exactly that entry, leaves every other entry
unchanged, and performs no read from the stream (the stream and write
buffer are untouched). -/
theorem C9_recv_buffered {c : Connection} {id : Nat} {payload : ResponsePayload}
    (h : getKV c.buffered id = some payload) :
    (recv c id).2.readStream = c.readStream ∧
    (recv c id).2.written = c.written ∧
    (recv c id).2.buffered = removeKV c.buffered id ∧
    getKV (recv c id).2.buffered id = none ∧
    (∀ k, k ≠ id → getKV (recv c id).2.buffered k = getKV c.buffered k) ∧
    (∀ d, payload = .payloadOk d → (recv c id).1 = .ok d) ∧
    (∀ e, payload = .simError e → (recv c id).1 = .error e) := by
  have hrec : recv c id =
      (match payload with
       | .payloadOk dict => (.ok dict, { c with buffered := removeKV c.buffered id })
       | .simError e => (.error e, { c with buffered := removeKV c.buffered id })) := by
    unfold recv
    split
    · rename_i p2 hp
      rw [h] at hp
      injection hp with hp2
      subst hp2
      cases payload <;> rfl
    · rename_i hp
      rw [h] at hp
      simp at hp
  cases payload with
  | payloadOk dict =>
    rw [hrec]
    refine ⟨rfl, rfl, rfl, getKV_removeKV_self _ _, fun k hk => getKV_removeKV_ne _ _ _ hk,
      ?_, ?_⟩
    · intro d hd
      cases hd
      rfl
    · intro e he
      cases he
  | simError er =>
    rw [hrec]
    refine ⟨rfl, rfl, rfl, getKV_removeKV_self _ _, fun k hk => getKV_removeKV_ne _ _ _ hk,
      ?_, ?_⟩
    · intro d hd
      cases hd
    · intro e he
      cases he
      rfl

/-- request unfolds to send_raw followed by recv on the allocated id. -/
theorem request_eq_recv (c : Connection) (t : String) (fs : List (String × Value)) :
    request c t fs = recv ((send_raw c t fs).2) c.reqId := rfl

/-- request against a stream whose first frame answers the id that
send_raw allocates, carrying no simulator error. -/
theorem request_ok {c : Connection} {bs rest : List Nat} {e : StreamEnd} {v : Value}
    {tr : List Nat} {d : StrDict} (t : String) (fs : List (String × Value))
    (hbuf : getKV c.buffered c.reqId = none)
    (hs : c.readStream = ⟨write_frame [] bs ++ rest, e⟩)
    (hlen : bs.length < 2 ^ 32)
    (hdec : decodeValue bs = some (v, tr))
    (hdict : value_to_str_dict v = some d)
    (hid : (getKV d "_id").bind value_as_u64 = some c.reqId)
    (hok : check_sim_error d = none) :
    request c t fs = (.ok d, { (send_raw c t fs).2 with readStream := ⟨rest, e⟩ }) := by
  have hb2 : getKV ((send_raw c t fs).2).buffered c.reqId = none := hbuf
  have hs2 : ((send_raw c t fs).2).readStream = ⟨write_frame [] bs ++ rest, e⟩ := hs
  have h1 := recv_frame_match hb2 hs2 hlen hdec hdict hid
  rw [hok] at h1
  rw [request_eq_recv]
  exact h1

/-- C7: a received frame that decodes to a dict without an extractable
_id value makes recv fail with the MissingId condition, not a decode or
generic I/O condition. -/
theorem C7_recv_missing_id {c : Connection} {bs rest : List Nat} {e : StreamEnd}
    {v : Value} {tr : List Nat} {d : StrDict} {N : Nat}
    (hbuf : getKV c.buffered N = none)
    (hs : c.readStream = ⟨write_frame [] bs ++ rest, e⟩)
    (hlen : bs.length < 2 ^ 32)
    (hdec : decodeValue bs = some (v, tr))
    (hdict : value_to_str_dict v = some d)
    (hid : (getKV d "_id").bind value_as_u64 = none) :
    recv c N = (.error .MissingId, { c with readStream := ⟨rest, e⟩ }) := by
  rw [recv_of_buffer_none hbuf]
  exact recvLoop_step_missing (read_one_message_frame hs hlen hdec hdict) hid

/-- Witness for C7: a frame whose message has a type but no _id. -/
theorem C7_recv_missing_id_witness :
    recv ⟨⟨write_frame [] (encode (.map [(.str "type", .str "T")])) ++ [], .closed⟩,
        [], 0, []⟩ 0 =
      (.error .MissingId, ⟨⟨[], .closed⟩, [], 0, []⟩) :=
  C7_recv_missing_id rfl rfl (by decide) rfl rfl rfl

/-- C10: a frame whose payload decodes to a structured value that is not
convertible to a string-keyed dict (not a map, or a map with a key that
is neither text nor UTF-8-valid binary) makes recv fail with the
MissingId condition rather than a decode condition. -/
theorem C10_recv_not_dict {c : Connection} {bs rest : List Nat} {e : StreamEnd}
    {v : Value} {tr : List Nat} {N : Nat}
    (hbuf : getKV c.buffered N = none)
    (hs : c.readStream = ⟨write_frame [] bs ++ rest, e⟩)
    (hlen : bs.length < 2 ^ 32)
    (hdec : decodeValue bs = some (v, tr))
    (hdict : value_to_str_dict v = none) :
    recv c N = (.error .MissingId, c) := by
  rw [recv_of_buffer_none hbuf]
  exact recvLoop_step_err (read_one_message_frame_nodict hs hlen hdec hdict)

/-- Witness for C10: a frame carrying a bare integer (not a map), and a
frame carrying a map with an invalid-UTF-8 binary key. -/
theorem C10_recv_not_dict_witness :
    recv ⟨⟨write_frame [] (encode (.uint 5)) ++ [], .closed⟩, [], 0, []⟩ 0 =
      (.error .MissingId, ⟨⟨write_frame [] (encode (.uint 5)) ++ [], .closed⟩, [], 0, []⟩) ∧
    recv ⟨⟨write_frame [] (encode (.map [(.bin [255], .nil)])) ++ [], .closed⟩, [], 0, []⟩ 0 =
      (.error .MissingId,
       ⟨⟨write_frame [] (encode (.map [(.bin [255], .nil)])) ++ [], .closed⟩, [], 0, []⟩) :=
  ⟨C10_recv_not_dict rfl rfl (by decide) rfl rfl,
   C10_recv_not_dict rfl rfl (by decide) rfl rfl⟩

/-- C6: a response map carrying the awaited id fails recv with the
SimulatorError kind carrying the bngError text value; with bngError
absent and bngValueError present it fails with the distinct ValueError
kind carrying that text; with neither key it succeeds with the map.
request surfaces the same failures. -/
theorem C6_sim_error_surfacing {c : Connection} {bs rest : List Nat} {e : StreamEnd}
    {v : Value} {tr : List Nat} {d : StrDict} {N : Nat}
    (hbuf : getKV c.buffered N = none)
    (hs : c.readStream = ⟨write_frame [] bs ++ rest, e⟩)
    (hlen : bs.length < 2 ^ 32)
    (hdec : decodeValue bs = some (v, tr))
    (hdict : value_to_str_dict v = some d)
    (hid : (getKV d "_id").bind value_as_u64 = some N) :
    (∀ m, getKV d "bngError" = some (.str m) →
      recv c N = (.error (.SimulatorError m), { c with readStream := ⟨rest, e⟩ })) ∧
    (∀ m, getKV d "bngError" = none → getKV d "bngValueError" = some (.str m) →
      recv c N = (.error (.ValueError m), { c with readStream := ⟨rest, e⟩ })) ∧
    (getKV d "bngError" = none → getKV d "bngValueError" = none →
      recv c N = (.ok d, { c with readStream := ⟨rest, e⟩ })) ∧
    (∀ m t fs, c.reqId = N → getKV d "bngError" = some (.str m) →
      (request c t fs).1 = .error (.SimulatorError m)) ∧
    (∀ m t fs, c.reqId = N → getKV d "bngError" = none →
      getKV d "bngValueError" = some (.str m) →
      (request c t fs).1 = .error (.ValueError m)) := by
  have hmain := recv_frame_match hbuf hs hlen hdec hdict hid
  refine ⟨?_, ?_, ?_, ?_, ?_⟩
  · intro m hm
    have hce : check_sim_error d = some (.SimulatorError m) := by
      unfold check_sim_error
      rw [hm]
      rfl
    rw [hmain, hce]
  · intro m hm0 hm
    have hce : check_sim_error d = some (.ValueError m) := by
      unfold check_sim_error
      rw [hm0]
      dsimp only
      rw [hm]
      rfl
    rw [hmain, hce]
  · intro hm0 hm1
    have hce : check_sim_error d = none := by
      unfold check_sim_error
      rw [hm0]
      dsimp only
      rw [hm1]
    rw [hmain, hce]
  · intro m t fs hN hm
    have hce : check_sim_error d = some (.SimulatorError m) := by
      unfold check_sim_error
      rw [hm]
      rfl
    have hb2 : getKV ((send_raw c t fs).2).buffered N = none := hbuf
    have hs2 : ((send_raw c t fs).2).readStream = ⟨write_frame [] bs ++ rest, e⟩ := hs
    have h1 := recv_frame_match hb2 hs2 hlen hdec hdict hid
    rw [hce] at h1
    rw [request_eq_recv, hN, h1]
  · intro m t fs hN hm0 hm
    have hce : check_sim_error d = some (.ValueError m) := by
      unfold check_sim_error
      rw [hm0]
      dsimp only
      rw [hm]
      rfl
    have hb2 : getKV ((send_raw c t fs).2).buffered N = none := hbuf
    have hs2 : ((send_raw c t fs).2).readStream = ⟨write_frame [] bs ++ rest, e⟩ := hs
    have h1 := recv_frame_match hb2 hs2 hlen hdec hdict hid
    rw [hce] at h1
    rw [request_eq_recv, hN, h1]

/-- Witness for C6: concrete frames carrying bngError, bngValueError,
and neither, each under the awaited id 0. -/
theorem C6_sim_error_surfacing_witness :
    recv ⟨⟨write_frame [] (encode (.map [(.str "_id", .uint 0),
        (.str "bngError", .str "boom")])) ++ [], .closed⟩, [], 0, []⟩ 0 =
      (.error (.SimulatorError "boom"), ⟨⟨[], .closed⟩, [], 0, []⟩) ∧
    recv ⟨⟨write_frame [] (encode (.map [(.str "_id", .uint 0),
        (.str "bngValueError", .str "bad arg")])) ++ [], .closed⟩, [], 0, []⟩ 0 =
      (.error (.ValueError "bad arg"), ⟨⟨[], .closed⟩, [], 0, []⟩) ∧
    recv ⟨⟨write_frame [] (encode (.map [(.str "_id", .uint 0),
        (.str "type", .str "Paused")])) ++ [], .closed⟩, [], 0, []⟩ 0 =
      (.ok [("_id", .uint 0), ("type", .str "Paused")], ⟨⟨[], .closed⟩, [], 0, []⟩) :=
  ⟨(@C6_sim_error_surfacing
      ⟨⟨write_frame [] (encode (.map [(.str "_id", .uint 0),
          (.str "bngError", .str "boom")])) ++ [], .closed⟩, [], 0, []⟩
      (encode (.map [(.str "_id", .uint 0), (.str "bngError", .str "boom")]))
      [] .closed
      (.map [(.str "_id", .uint 0), (.str "bngError", .str "boom")])
      [] [("_id", .uint 0), ("bngError", .str "boom")] 0
      rfl rfl (by decide) rfl rfl rfl).1 "boom" rfl,
   (@C6_sim_error_surfacing
      ⟨⟨write_frame [] (encode (.map [(.str "_id", .uint 0),
          (.str "bngValueError", .str "bad arg")])) ++ [], .closed⟩, [], 0, []⟩
      (encode (.map [(.str "_id", .uint 0), (.str "bngValueError", .str "bad arg")]))
      [] .closed
      (.map [(.str "_id", .uint 0), (.str "bngValueError", .str "bad arg")])
      [] [("_id", .uint 0), ("bngValueError", .str "bad arg")] 0
      rfl rfl (by decide) rfl rfl rfl).2.1 "bad arg" rfl rfl,
   (@C6_sim_error_surfacing
      ⟨⟨write_frame [] (encode (.map [(.str "_id", .uint 0),
          (.str "type", .str "Paused")])) ++ [], .closed⟩, [], 0, []⟩
      (encode (.map [(.str "_id", .uint 0), (.str "type", .str "Paused")]))
      [] .closed
      (.map [(.str "_id", .uint 0), (.str "type", .str "Paused")])
      [] [("_id", .uint 0), ("type", .str "Paused")] 0
      rfl rfl (by decide) rfl rfl rfl).2.2.1 rfl rfl⟩

/-- The truncating f64-to-u64 cast is the identity on naturals below
2^64 (cast into the rationals). -/
theorem f64_as_u64_natCast (N : Nat) (h : N < 2 ^ 64) : f64_as_u64 ((N : Nat) : Rat) = N := by
  unfold f64_as_u64
  rw [if_neg]
  · simp only [Rat.num_natCast, Rat.den_natCast, Int.toNat_natCast, Nat.div_one]
    omega
  · simp

/-- C8: value_as_u64 accepts unsigned integers, signed integers (with
the two's-complement u64 cast), and floating point (with the truncating
cast); in particular a response whose _id is a floating-point number
with the awaited integer value is matched by recv exactly as an
unsigned _id would be. -/
theorem C8_id_coercion :
    (∀ n : Nat, value_as_u64 (.uint n) = some n) ∧
    (∀ i : Int, value_as_u64 (.int i) = some ((i % 2 ^ 64).toNat)) ∧
    (∀ N : Nat, N < 2 ^ 64 → value_as_u64 (.float ((N : Nat) : Rat)) = some N) ∧
    (∀ (c : Connection) (bs rest : List Nat) (e : StreamEnd) (v : Value) (tr : List Nat)
        (d : StrDict) (N : Nat),
      getKV c.buffered N = none →
      c.readStream = ⟨write_frame [] bs ++ rest, e⟩ →
      bs.length < 2 ^ 32 →
      decodeValue bs = some (v, tr) →
      value_to_str_dict v = some d →
      getKV d "_id" = some (.float ((N : Nat) : Rat)) →
      N < 2 ^ 64 →
      check_sim_error d = none →
      recv c N = (.ok d, { c with readStream := ⟨rest, e⟩ })) := by
  have hu : ∀ n : Nat, value_as_u64 (.uint n) = some n := fun n => rfl
  have hf : ∀ N : Nat, N < 2 ^ 64 → value_as_u64 (.float ((N : Nat) : Rat)) = some N := by
    intro N h
    unfold value_as_u64 Value.as_u64 Value.as_i64 Value.as_f64
    dsimp only [Option.orElse, Option.map]
    rw [f64_as_u64_natCast N h]
  refine ⟨hu, fun i => rfl, hf, ?_⟩
  intro c bs rest e v tr d N hbuf hs hlen hdec hdict hgid hN hok
  have hid : (getKV d "_id").bind value_as_u64 = some N := by
    rw [hgid]
    simpa using hf N hN
  rw [recv_frame_match hbuf hs hlen hdec hdict hid, hok]

/-- Witness for C8: the three coercions at 5, -3 and 3, and a concrete
frame whose _id is the float 3.0 matched while awaiting id 3. -/
theorem C8_id_coercion_witness :
    value_as_u64 (.uint 5) = some 5 ∧
    value_as_u64 (.int (-3)) = some (((-3 : Int) % 2 ^ 64).toNat) ∧
    value_as_u64 (.float ((3 : Nat) : Rat)) = some 3 ∧
    recv ⟨⟨write_frame [] (encode (.map [(.str "_id", .float ((3 : Nat) : Rat)),
        (.str "type", .str "Paused")])) ++ [], .closed⟩, [], 3, []⟩ 3 =
      (.ok [("_id", .float ((3 : Nat) : Rat)), ("type", .str "Paused")],
       ⟨⟨[], .closed⟩, [], 3, []⟩) :=
  ⟨C8_id_coercion.1 5,
   C8_id_coercion.2.1 (-3),
   C8_id_coercion.2.2.1 3 (by decide),
   C8_id_coercion.2.2.2 ⟨⟨write_frame [] (encode (.map [(.str "_id", .float ((3 : Nat) : Rat)),
        (.str "type", .str "Paused")])) ++ [], .closed⟩, [], 3, []⟩ _ [] .closed _ []
     [("_id", .float ((3 : Nat) : Rat)), ("type", .str "Paused")] 3
     rfl rfl (by decide) rfl rfl rfl (by decide) rfl⟩

/-- The Hello request of the handshake, answered by one frame carrying
id 0 and no simulator error, returns the decoded response dict. -/
theorem open_hello_resp {bs : List Nat} {e : StreamEnd} {v : Value} {tr : List Nat}
    {d : StrDict}
    (hlen : bs.length < 2 ^ 32)
    (hdec : decodeValue bs = some (v, tr))
    (hdict : value_to_str_dict v = some d)
    (hid : (getKV d "_id").bind value_as_u64 = some 0)
    (hok : check_sim_error d = none) :
    request (⟨⟨write_frame [] bs, e⟩, [], 0, []⟩ : Connection) "Hello"
        [("protocolVersion", .str PROTOCOL_VERSION)] =
      (.ok d, { (send_raw (⟨⟨write_frame [] bs, e⟩, [], 0, []⟩ : Connection) "Hello"
          [("protocolVersion", .str PROTOCOL_VERSION)]).2 with readStream := ⟨[], e⟩ }) := by
  refine request_ok "Hello" [("protocolVersion", .str PROTOCOL_VERSION)] rfl ?_ hlen hdec
    hdict hid hok
  show (⟨write_frame [] bs, e⟩ : ByteStream) = ⟨write_frame [] bs ++ [], e⟩
  rw [List.append_nil]

/-- C4: if the handshake response has a protocolVersion differing from
the client constant, open fails with the ProtocolMismatch kind whose
message includes both version strings; if the version matches but the
response type is not Hello, open fails with UnexpectedResponseType. In
both cases no connection is returned to the caller. -/
theorem C4_handshake_failure {bs : List Nat} {e : StreamEnd} {v : Value} {tr : List Nat}
    {d : StrDict}
    (hlen : bs.length < 2 ^ 32)
    (hdec : decodeValue bs = some (v, tr))
    (hdict : value_to_str_dict v = some d)
    (hid : (getKV d "_id").bind value_as_u64 = some 0)
    (hok : check_sim_error d = none) :
    (∀ ver, ((getKV d "protocolVersion").bind value_as_str).getD "" = ver →
      ver ≠ PROTOCOL_VERSION →
      openConn ⟨write_frame [] bs, e⟩ =
        .error (.ProtocolMismatch ("BeamNGpy\x27s is: " ++ PROTOCOL_VERSION ++
          ", BeamNG.tech\x27s is: " ++ ver)) ∧
      ∃ s1 s2 s3,
        "BeamNGpy\x27s is: " ++ PROTOCOL_VERSION ++ ", BeamNG.tech\x27s is: " ++ ver =
          s1 ++ (PROTOCOL_VERSION ++ (s2 ++ (ver ++ s3)))) ∧
    (∀ rt, ((getKV d "protocolVersion").bind value_as_str).getD "" = PROTOCOL_VERSION →
      ((getKV d "type").bind value_as_str).getD "" = rt →
      rt ≠ "Hello" →
      openConn ⟨write_frame [] bs, e⟩ = .error (.UnexpectedResponseType "Hello" rt)) := by
  have hreq := @open_hello_resp bs e v tr d hlen hdec hdict hid hok
  constructor
  · intro ver hver hne
    constructor
    · have hhello : hello (⟨⟨write_frame [] bs, e⟩, [], 0, []⟩ : Connection) =
          (.error (.ProtocolMismatch ("BeamNGpy\x27s is: " ++ PROTOCOL_VERSION ++
            ", BeamNG.tech\x27s is: " ++ ver)),
           { (send_raw (⟨⟨write_frame [] bs, e⟩, [], 0, []⟩ : Connection) "Hello"
              [("protocolVersion", .str PROTOCOL_VERSION)]).2 with readStream := ⟨[], e⟩ }) := by
        simp only [hello]
        rw [hreq]
        dsimp only
        rw [hver, if_pos hne]
      simp only [openConn]
      rw [hhello]
    · exact ⟨"BeamNGpy\x27s is: ", ", BeamNG.tech\x27s is: ", "", by
        simp [String.append_assoc]⟩
  · intro rt hver hrt hne
    have hhello : hello (⟨⟨write_frame [] bs, e⟩, [], 0, []⟩ : Connection) =
        (.error (.UnexpectedResponseType "Hello" rt),
         { (send_raw (⟨⟨write_frame [] bs, e⟩, [], 0, []⟩ : Connection) "Hello"
            [("protocolVersion", .str PROTOCOL_VERSION)]).2 with readStream := ⟨[], e⟩ }) := by
      simp only [hello]
      rw [hreq]
      dsimp only
      rw [hver, if_neg (by simp), hrt, if_pos hne]
    simp only [openConn]
    rw [hhello]

/-- Witness for C4: a peer echoing version v0.99 makes open fail with
ProtocolMismatch naming both versions; a peer echoing the right version
under type Handshake makes open fail with UnexpectedResponseType. -/
theorem C4_handshake_failure_witness :
    openConn ⟨write_frame [] (encode (.map [(.str "_id", .uint 0),
        (.str "type", .str "Hello"), (.str "protocolVersion", .str "v0.99")])), .closed⟩ =
      .error (.ProtocolMismatch ("BeamNGpy\x27s is: " ++ PROTOCOL_VERSION ++
        ", BeamNG.tech\x27s is: " ++ "v0.99")) ∧
    openConn ⟨write_frame [] (encode (.map [(.str "_id", .uint 0),
        (.str "type", .str "Handshake"), (.str "protocolVersion", .str "v1.26")])), .closed⟩ =
      .error (.UnexpectedResponseType "Hello" "Handshake") :=
  ⟨((@C4_handshake_failure
      (encode (.map [(.str "_id", .uint 0), (.str "type", .str "Hello"),
        (.str "protocolVersion", .str "v0.99")]))
      .closed
      (.map [(.str "_id", .uint 0), (.str "type", .str "Hello"),
        (.str "protocolVersion", .str "v0.99")])
      []
      [("_id", .uint 0), ("type", .str "Hello"), ("protocolVersion", .str "v0.99")]
      (by decide) rfl rfl rfl rfl).1 "v0.99" rfl (by decide)).1,
   (@C4_handshake_failure
      (encode (.map [(.str "_id", .uint 0), (.str "type", .str "Handshake"),
        (.str "protocolVersion", .str "v1.26")]))
      .closed
      (.map [(.str "_id", .uint 0), (.str "type", .str "Handshake"),
        (.str "protocolVersion", .str "v1.26")])
      []
      [("_id", .uint 0), ("type", .str "Handshake"), ("protocolVersion", .str "v1.26")]
      (by decide) rfl rfl rfl rfl).2 "Handshake" rfl rfl (by decide)⟩

/-- sendSeq assigns consecutive ids starting at the current counter, as
long as the u64 counter does not wrap. -/
theorem sendSeq_ids (reqs : List (String × List (String × Value))) :
    ∀ c : Connection, c.reqId + reqs.length ≤ 2 ^ 64 →
      (sendSeq c reqs).1 = List.range' c.reqId reqs.length := by
  induction reqs with
  | nil => intro c h; rfl
  | cons r rs ih =>
    intro c h
    have hfirst : (sendSeq c (r :: rs)).1 =
        c.reqId :: (sendSeq ((send_raw c r.1 r.2).2) rs).1 := rfl
    rw [hfirst]
    by_cases hlt : c.reqId + 1 < 2 ^ 64
    · have hmod : ((send_raw c r.1 r.2).2).reqId = c.reqId + 1 := by
        show (c.reqId + 1) % 2 ^ 64 = c.reqId + 1
        exact Nat.mod_eq_of_lt hlt
      have hbound : ((send_raw c r.1 r.2).2).reqId + rs.length ≤ 2 ^ 64 := by
        rw [hmod]
        simp only [List.length_cons] at h
        omega
      rw [ih _ hbound, hmod]
      simp only [List.length_cons]
      rfl
    · have hrs : rs.length = 0 := by
        simp only [List.length_cons] at h
        omega
      have hrsnil : rs = [] := List.length_eq_zero.mp hrs
      subst hrsnil
      rfl

/-- C5: send_raw returns the current counter value and bumps the u64
counter by one, writing one frame whose message map starts with the
type entry and the assigned id under the reserved _id key; iterating
sends from a fresh connection therefore allocates ids 0, 1, 2, ... in
submission order (strictly increasing over the u64 id space). -/
theorem C5_request_ids :
    (∀ (c : Connection) (t : String) (fs : List (String × Value)),
      (send_raw c t fs).1 = c.reqId ∧
      (send_raw c t fs).2.reqId = (c.reqId + 1) % 2 ^ 64 ∧
      (send_raw c t fs).2.written = write_frame c.written (encode (.map
        ((.str "type", .str t) :: (.str "_id", .uint c.reqId) ::
          fs.map (fun kv => (Value.str kv.1, kv.2))))) ∧
      (send_raw c t fs).2.readStream = c.readStream ∧
      (send_raw c t fs).2.buffered = c.buffered) ∧
    (∀ (reqs : List (String × List (String × Value))) (c : Connection),
      c.reqId + reqs.length ≤ 2 ^ 64 →
      (sendSeq c reqs).1 = List.range' c.reqId reqs.length) ∧
    (∀ (reqs : List (String × List (String × Value))) (c : Connection),
      c.reqId = 0 → reqs.length ≤ 2 ^ 64 →
      (sendSeq c reqs).1 = List.range reqs.length) := by
  refine ⟨fun c t fs => ⟨rfl, rfl, rfl, rfl, rfl⟩,
    fun reqs c h => sendSeq_ids reqs c h, ?_⟩
  intro reqs c h0 hl
  rw [sendSeq_ids reqs c (by omega), h0, List.range_eq_range']

/-- Witness for C5: from a fresh connection the first allocated id is 0,
the counter moves to 1, and two successive sends allocate [0, 1]. -/
theorem C5_request_ids_witness :
    (send_raw (⟨⟨[], .closed⟩, [], 0, []⟩ : Connection) "A" []).1 = 0 ∧
    (send_raw (⟨⟨[], .closed⟩, [], 0, []⟩ : Connection) "A" []).2.reqId = 1 % 2 ^ 64 ∧
    (sendSeq (⟨⟨[], .closed⟩, [], 0, []⟩ : Connection) [("A", []), ("B", [])]).1 =
      List.range 2 :=
  ⟨(C5_request_ids.1 ⟨⟨[], .closed⟩, [], 0, []⟩ "A" []).1,
   (C5_request_ids.1 ⟨⟨[], .closed⟩, [], 0, []⟩ "A" []).2.1,
   C5_request_ids.2.2 [("A", []), ("B", [])] ⟨⟨[], .closed⟩, [], 0, []⟩ rfl (by decide)⟩

/-- C1: out-of-order correlation — after the handshake, a peer that
first sends a well-formed response frame carrying a different id (99)
and then the response frame carrying the awaited id N makes recv(N)
(and request, when N is the id it allocates) return the id-N payload,
and afterwards the pending buffer holds the classified id-99 payload
under key 99. -/
theorem C1_out_of_order {c : Connection} {bs1 bs2 : List Nat} {e : StreamEnd}
    {v1 v2 : Value} {t1 t2 : List Nat} {d99 dN : StrDict} {N : Nat}
    (hne : N ≠ 99)
    (hbuf : getKV c.buffered N = none)
    (hs : c.readStream = ⟨write_frame [] bs1 ++ write_frame [] bs2, e⟩)
    (hlen1 : bs1.length < 2 ^ 32)
    (hlen2 : bs2.length < 2 ^ 32)
    (hdec1 : decodeValue bs1 = some (v1, t1))
    (hdict1 : value_to_str_dict v1 = some d99)
    (hid1 : (getKV d99 "_id").bind value_as_u64 = some 99)
    (hdec2 : decodeValue bs2 = some (v2, t2))
    (hdict2 : value_to_str_dict v2 = some dN)
    (hid2 : (getKV dN "_id").bind value_as_u64 = some N)
    (hok : check_sim_error dN = none) :
    recv c N = (.ok dN, { c with
        readStream := ⟨[], e⟩
        buffered := insertKV c.buffered 99 (classifyPayload d99) }) ∧
    getKV (insertKV c.buffered 99 (classifyPayload d99)) 99 = some (classifyPayload d99) ∧
    (∀ t fs, c.reqId = N → (request c t fs).1 = .ok dN) := by
  have key : ∀ c3 : Connection, c3.buffered = c.buffered → c3.readStream = c.readStream →
      recv c3 N = (.ok dN, { c3 with
        readStream := ⟨[], e⟩
        buffered := insertKV c.buffered 99 (classifyPayload d99) }) := by
    intro c3 hb3 hr3
    have hbuf3 : getKV c3.buffered N = none := by rw [hb3]; exact hbuf
    have hs3 : c3.readStream = ⟨write_frame [] bs1 ++ write_frame [] bs2, e⟩ := by
      rw [hr3]; exact hs
    have h1 := read_one_message_frame hs3 hlen1 hdec1 hdict1
    have e1 : recvLoop c3 N = recvLoop { c3 with
        readStream := ⟨write_frame [] bs2, e⟩
        buffered := insertKV c.buffered 99 (classifyPayload d99) } N := by
      have e0 := recvLoop_step_buffer h1 hid1 (Ne.symm hne)
      rw [e0]
      have hbeq : insertKV ({ c3 with readStream := (⟨write_frame [] bs2, e⟩ :
          ByteStream) }).buffered 99 (classifyPayload d99) =
          insertKV c.buffered 99 (classifyPayload d99) := by
        show insertKV c3.buffered 99 (classifyPayload d99) =
          insertKV c.buffered 99 (classifyPayload d99)
        rw [hb3]
      rw [hbeq]
    have h2 : read_one_message { c3 with
        readStream := ⟨write_frame [] bs2, e⟩
        buffered := insertKV c.buffered 99 (classifyPayload d99) } =
        .ok (dN, { c3 with
          readStream := ⟨[], e⟩
          buffered := insertKV c.buffered 99 (classifyPayload d99) }) := by
      have hs4 : ({ c3 with
          readStream := (⟨write_frame [] bs2, e⟩ : ByteStream)
          buffered := insertKV c.buffered 99 (classifyPayload d99) } :
          Connection).readStream = ⟨write_frame [] bs2 ++ [], e⟩ := by
        show (⟨write_frame [] bs2, e⟩ : ByteStream) = ⟨write_frame [] bs2 ++ [], e⟩
        rw [List.append_nil]
      exact read_one_message_frame hs4 hlen2 hdec2 hdict2
    have e2 := recvLoop_step_match h2 hid2
    rw [recv_of_buffer_none hbuf3, e1, e2, hok]
  refine ⟨?_, getKV_insertKV_self _ _ _, ?_⟩
  · have h := key c rfl rfl
    exact h
  · intro t fs hN
    have h := key ((send_raw c t fs).2) rfl rfl
    rw [request_eq_recv, hN, h]

/-- Witness for C1 at N = 1: the buffer starts empty, the peer answers
id 99 first (type Future), then id 1 (type Paused). -/
theorem C1_out_of_order_witness :
    recv ⟨⟨write_frame [] (encode (.map [(.str "type", .str "Future"), (.str "_id", .uint 99)])) ++
        write_frame [] (encode (.map [(.str "type", .str "Paused"), (.str "_id", .uint 1)])),
        .closed⟩, [], 1, []⟩ 1 =
      (.ok [("type", .str "Paused"), ("_id", .uint 1)],
       ⟨⟨[], .closed⟩, [], 1,
        [(99, .payloadOk [("type", .str "Future"), ("_id", .uint 99)])]⟩) ∧
    getKV (insertKV ([] : List (Nat × ResponsePayload)) 99
        (classifyPayload [("type", .str "Future"), ("_id", .uint 99)])) 99 =
      some (classifyPayload [("type", .str "Future"), ("_id", .uint 99)]) ∧
    (∀ t fs,
      (⟨⟨write_frame [] (encode (.map [(.str "type", .str "Future"), (.str "_id", .uint 99)])) ++
        write_frame [] (encode (.map [(.str "type", .str "Paused"), (.str "_id", .uint 1)])),
        .closed⟩, [], 1, []⟩ : Connection).reqId = 1 →
      (request ⟨⟨write_frame [] (encode (.map [(.str "type", .str "Future"),
          (.str "_id", .uint 99)])) ++
        write_frame [] (encode (.map [(.str "type", .str "Paused"), (.str "_id", .uint 1)])),
        .closed⟩, [], 1, []⟩ t fs).1 = .ok [("type", .str "Paused"), ("_id", .uint 1)]) :=
  @C1_out_of_order
    ⟨⟨write_frame [] (encode (.map [(.str "type", .str "Future"), (.str "_id", .uint 99)])) ++
        write_frame [] (encode (.map [(.str "type", .str "Paused"), (.str "_id", .uint 1)])),
        .closed⟩, [], 1, []⟩
    (encode (.map [(.str "type", .str "Future"), (.str "_id", .uint 99)]))
    (encode (.map [(.str "type", .str "Paused"), (.str "_id", .uint 1)]))
    .closed
    (.map [(.str "type", .str "Future"), (.str "_id", .uint 99)])
    (.map [(.str "type", .str "Paused"), (.str "_id", .uint 1)])
    [] []
    [("type", .str "Future"), ("_id", .uint 99)]
    [("type", .str "Paused"), ("_id", .uint 1)]
    1
    (by decide) rfl rfl (by decide) (by decide) rfl rfl rfl rfl rfl rfl rfl

/-- Witness for C9 at a concrete two-entry buffer, hitting id 3 and
checking the other entry survives while id 3 is gone and the stream is
untouched. -/
theorem C9_recv_buffered_witness :
    getKV [(3, ResponsePayload.payloadOk [("type", .str "X")]),
           (4, ResponsePayload.simError (.SimulatorError "boom"))] 3 =
      some (.payloadOk [("type", .str "X")]) ∧
    (recv ⟨⟨[1, 2, 3], .closed⟩, [5], 7,
        [(3, .payloadOk [("type", .str "X")]),
         (4, .simError (.SimulatorError "boom"))]⟩ 3).2.readStream = ⟨[1, 2, 3], .closed⟩ ∧
    (recv ⟨⟨[1, 2, 3], .closed⟩, [5], 7,
        [(3, .payloadOk [("type", .str "X")]),
         (4, .simError (.SimulatorError "boom"))]⟩ 3).1 = .ok [("type", .str "X")] ∧
    getKV (recv ⟨⟨[1, 2, 3], .closed⟩, [5], 7,
        [(3, .payloadOk [("type", .str "X")]),
         (4, .simError (.SimulatorError "boom"))]⟩ 3).2.buffered 4 =
      some (.simError (.SimulatorError "boom")) :=
  ⟨rfl,
   (C9_recv_buffered (by rfl)).1,
   (C9_recv_buffered (by rfl)).2.2.2.2.2.1 [("type", .str "X")] rfl,
   ((C9_recv_buffered (by rfl)).2.2.2.2.1 4 (by decide)).trans rfl⟩

end Bng
